import Mathlib

/-!
Verification of the lit-demo image viewer core against its design spec.

The development shallowly embeds the two algorithmic subsystems:

* the viewport transform engine (`ViewportService` in
  `src/services/viewport-service.js`): fit, zoom-at-point, pan, clamp;
* the image ingestion pipeline (`ImageService` in
  `src/services/image-service.js`): EXIF orientation parsing, orientation
  normalization, guardrail policy, and the load orchestration.

JavaScript numbers are modelled as exact rationals (ℚ): every arithmetic
operation the embedded code performs on the inputs considered here is exact
in IEEE semantics for the small integer-valued inputs of the counterexamples,
and the invariants proved are the exact-arithmetic content of the spec.
Fallible JavaScript code (DataView reads that can throw RangeError) is
modelled with `Except`.
-/

namespace LitDemo

/-! ## Viewport transform engine (ViewportService) -/

/-- The mutable record owned by `ViewportServiceImpl`:
viewport size `vw`/`vh`, content size `cw`/`ch`, transform
`screen = image * scale + translate`, and the zoom bounds. -/
structure VState where
  vw : ℚ
  vh : ℚ
  cw : ℚ
  ch : ℚ
  scale : ℚ
  tx : ℚ
  ty : ℚ
  minScale : ℚ
  maxScale : ℚ
  deriving DecidableEq, Repr

/-- Constructor state of `ViewportServiceImpl`. -/
def initState : VState :=
  { vw := 0, vh := 0, cw := 1, ch := 1, scale := 1, tx := 0, ty := 0
    minScale := 1, maxScale := 8 }

/-- JavaScript truncation toward zero (the integer part of ToInt32). -/
def jsTrunc (q : ℚ) : ℤ :=
  if 0 ≤ q then ⌊q⌋ else -⌊-q⌋

/-- JavaScript `x | 0` (ToInt32): truncate toward zero, wrap into
the signed 32-bit range. -/
def jsToInt32 (q : ℚ) : ℤ :=
  ((jsTrunc q + 2 ^ 31) % 2 ^ 32) - 2 ^ 31

/-- One axis of `clampPan()`: center content smaller than the viewport,
otherwise clamp the translate into `[viewport - scaledContent, 0]`.
The two JS conditional assignments `if (t < minT) ...; if (t > maxT) ...`
are the sequential composition `min (max t minT) maxT` with `maxT = 0`.
The source writes this block twice, once per axis, with identical logic. -/
def clampAxis (scaled viewport t : ℚ) : ℚ :=
  if scaled ≤ viewport then (viewport - scaled) / 2
  else min (max t (viewport - scaled)) 0

/-- Source `clampPan()`: apply the axis clamp to both axes. -/
def clampPan (s : VState) : VState :=
  { s with tx := clampAxis (s.cw * s.scale) s.vw s.tx
           ty := clampAxis (s.ch * s.scale) s.vh s.ty }

/-- Source `_recomputeMinScale()`: fit-contain scale, with the degenerate guard,
and the accompanying `maxScale` update (`this.maxScale || this.minScale * 8`
reads the old `maxScale` unless it is falsy, i.e. zero). -/
def recomputeMinScale (s : VState) : VState :=
  if s.vw ≤ 0 ∨ s.vh ≤ 0 ∨ s.cw ≤ 0 ∨ s.ch ≤ 0 then
    { s with minScale := 1 }
  else
    let sx := s.vw / s.cw
    let sy := s.vh / s.ch
    let m := min sx sy
    let m := if m ≤ 0 then 1 else m
    { s with minScale := m
             maxScale := max (m * 8) (if s.maxScale = 0 then m * 8 else s.maxScale) }

/-- Source `setViewportSize(width, height)`. -/
def setViewportSize (s : VState) (width height : ℚ) : VState :=
  clampPan { s with vw := max 0 ((jsToInt32 width : ℤ) : ℚ)
                    vh := max 0 ((jsToInt32 height : ℤ) : ℚ) }

/-- Source `setContentSize(width, height)`. -/
def setContentSize (s : VState) (width height : ℚ) : VState :=
  let s := { s with cw := max 1 ((jsToInt32 width : ℤ) : ℚ)
                    ch := max 1 ((jsToInt32 height : ℤ) : ℚ) }
  let s := recomputeMinScale s
  let s := { s with scale := max s.scale s.minScale }
  let s := { s with maxScale := max (s.minScale * 8) s.minScale }
  clampPan s

/-- Source `fitContain()`: set scale to the fit-contain minimum and center. -/
def fitContain (s : VState) : VState :=
  let s := recomputeMinScale s
  let s := { s with scale := s.minScale }
  { s with tx := (s.vw - s.cw * s.scale) / 2
           ty := (s.vh - s.ch * s.scale) / 2 }

/-- Source `zoomAt(factor, sx, sy)`: anchor-preserving zoom, clamped to
`[minScale, maxScale]`.  Over ℚ every value is finite, so the JS
`!isFinite(factor)` guard reduces to the `factor === 0` test. -/
def zoomAt (s : VState) (factor sx sy : ℚ) : VState :=
  if factor = 0 then s
  else
    let oldScale := s.scale
    let nextScale := max s.minScale (min s.maxScale (oldScale * factor))
    if nextScale = oldScale then s
    else
      let imageX := (sx - s.tx) / oldScale
      let imageY := (sy - s.ty) / oldScale
      clampPan { s with scale := nextScale
                        tx := sx - imageX * nextScale
                        ty := sy - imageY * nextScale }

/-- Source `panBy(dx, dy)`: no-op when both deltas are falsy (zero over ℚ). -/
def panBy (s : VState) (dx dy : ℚ) : VState :=
  if dx = 0 ∧ dy = 0 then s
  else clampPan { s with tx := s.tx + dx, ty := s.ty + dy }

/-- The mutating viewport operations of the public interface. -/
inductive VOp where
  | setViewportSize (width height : ℚ)
  | setContentSize (width height : ℚ)
  | fitContain
  | zoomAt (factor sx sy : ℚ)
  | panBy (dx dy : ℚ)
  deriving Repr

/-- One mutating call on the viewport state. -/
def stepOp (op : VOp) (s : VState) : VState :=
  match op with
  | .setViewportSize w h => setViewportSize s w h
  | .setContentSize w h => setContentSize s w h
  | .fitContain => fitContain s
  | .zoomAt f sx sy => zoomAt s f sx sy
  | .panBy dx dy => panBy s dx dy

/-- Run a call sequence from the constructor state. -/
def runOps (ops : List VOp) : VState :=
  ops.foldl (fun s op => stepOp op s) initState

/-- The fit-contain scale as the spec's formula states it:
`min(viewportWidth/contentWidth, viewportHeight/contentHeight)`, or 1 if
either dimension is degenerate. -/
def specMinScale (s : VState) : ℚ :=
  if s.vw ≤ 0 ∨ s.vh ≤ 0 ∨ s.cw ≤ 0 ∨ s.ch ≤ 0 then 1
  else min (s.vw / s.cw) (s.vh / s.ch)

/-- Clamped-pan condition on one axis: centered when the scaled content
fits, otherwise the translate lies in `[viewport - scaledContent, 0]`. -/
def axisClamped (scaled viewport t : ℚ) : Prop :=
  (scaled ≤ viewport → t = (viewport - scaled) / 2) ∧
  (viewport < scaled → viewport - scaled ≤ t ∧ t ≤ 0)

instance (scaled viewport t : ℚ) : Decidable (axisClamped scaled viewport t) := by
  unfold axisClamped; infer_instance

/-- The clamped-pan condition on both axes: per axis, if the scaled content
size fits inside the viewport the content is centered, otherwise the
translate lies in `[viewportSize - contentSize * scale, 0]`. -/
def panClamped (s : VState) : Prop :=
  axisClamped (s.cw * s.scale) s.vw s.tx ∧ axisClamped (s.ch * s.scale) s.vh s.ty

instance (s : VState) : Decidable (panClamped s) := by
  unfold panClamped; infer_instance

/-! ### Helper lemmas for the viewport theorems -/

/-- Source `clampPan` changes only the translate components. -/
theorem clampPan_scale (s : VState) : (clampPan s).scale = s.scale := rfl

theorem clampPan_minScale (s : VState) : (clampPan s).minScale = s.minScale := rfl

theorem clampPan_maxScale (s : VState) : (clampPan s).maxScale = s.maxScale := rfl

/-- The axis clamp establishes the clamped-pan condition on its axis. -/
theorem clampAxis_axisClamped (scaled viewport t : ℚ) :
    axisClamped scaled viewport (clampAxis scaled viewport t) := by
  unfold clampAxis axisClamped
  split_ifs with h
  · exact ⟨fun _ => rfl, fun hlt => absurd h (not_le.mpr hlt)⟩
  · refine ⟨fun hle => absurd hle h, fun _ => ⟨?_, min_le_right _ _⟩⟩
    refine le_min (le_max_right _ _) ?_
    have : viewport < scaled := not_le.mp h
    linarith

/-- Centering satisfies the clamped-pan condition on an axis. -/
theorem centered_axisClamped (scaled viewport : ℚ) :
    axisClamped scaled viewport ((viewport - scaled) / 2) := by
  unfold axisClamped
  exact ⟨fun _ => rfl, fun hlt => ⟨by linarith, by linarith⟩⟩

/-- Source `clampPan` establishes the clamped-pan condition from any state. -/
theorem clampPan_panClamped (s : VState) : panClamped (clampPan s) :=
  ⟨clampAxis_axisClamped _ _ _, clampAxis_axisClamped _ _ _⟩

/-- Each mutating operation leaves the state with a clamped pan. -/
theorem stepOp_panClamped (op : VOp) (s : VState) (h : panClamped s) :
    panClamped (stepOp op s) := by
  cases op with
  | setViewportSize w hh => exact clampPan_panClamped _
  | setContentSize w hh => exact clampPan_panClamped _
  | fitContain => exact ⟨centered_axisClamped _ _, centered_axisClamped _ _⟩
  | zoomAt f sx sy =>
      simp only [stepOp, zoomAt]
      split_ifs with h1 h2
      · exact h
      · exact h
      · exact clampPan_panClamped _
  | panBy dx dy =>
      simp only [stepOp, panBy]
      split_ifs with h1
      · exact h
      · exact clampPan_panClamped _

/-- Invariant preservation along a call sequence. -/
theorem foldl_invariant (P : VState → Prop)
    (hstep : ∀ op s, P s → P (stepOp op s)) :
    ∀ (ops : List VOp) (s : VState), P s → P (ops.foldl (fun s op => stepOp op s) s) := by
  intro ops
  induction ops with
  | nil => exact fun s hs => hs
  | cons op rest ih => exact fun s hs => ih _ (hstep op s hs)

/-- Each mutating operation keeps `minScale ≤ scale`. -/
theorem stepOp_min_le_scale (op : VOp) (s : VState) (h : s.minScale ≤ s.scale) :
    (stepOp op s).minScale ≤ (stepOp op s).scale := by
  cases op with
  | setViewportSize w hh => exact h
  | setContentSize w hh => exact le_max_right _ _
  | fitContain => exact le_of_eq rfl
  | zoomAt f sx sy =>
      simp only [stepOp, zoomAt]
      split_ifs with h1 h2
      · exact h
      · exact h
      · exact le_max_left _ _
  | panBy dx dy =>
      simp only [stepOp, panBy]
      split_ifs with h1
      · exact h
      · exact h

/-- Source `setContentSize` always sets `maxScale = max (8 * minScale) minScale`,
so `minScale ≤ maxScale` holds right after it. -/
theorem setContentSize_min_le_max (s : VState) (w h : ℚ) :
    (setContentSize s w h).minScale ≤ (setContentSize s w h).maxScale :=
  le_max_right _ _

/-- Source `setViewportSize` changes neither zoom bound. -/
theorem setViewportSize_bounds (s : VState) (w h : ℚ) :
    (setViewportSize s w h).minScale = s.minScale ∧
    (setViewportSize s w h).maxScale = s.maxScale :=
  ⟨rfl, rfl⟩

/-- The axis clamp is a fixpoint of itself. -/
theorem clampAxis_idem (scaled viewport t : ℚ) :
    clampAxis scaled viewport (clampAxis scaled viewport t) = clampAxis scaled viewport t := by
  unfold clampAxis
  split_ifs with h
  · rfl
  · have hv : viewport - scaled ≤ 0 := by linarith [not_le.mp h]
    have h1 : viewport - scaled ≤ min (max t (viewport - scaled)) 0 :=
      le_min (le_max_right _ _) hv
    rw [max_eq_left h1, min_eq_left (min_le_right _ _)]

/-! ### Concrete state evaluations used by the counterexamples -/

/-- Source `setViewportSize(800, 800)` from the constructor state. -/
theorem vpEval1 : stepOp (.setViewportSize 800 800) initState =
    { vw := 800, vh := 800, cw := 1, ch := 1, scale := 1, tx := 799/2, ty := 799/2,
      minScale := 1, maxScale := 8 } := by
  simp only [stepOp, setViewportSize, clampPan, clampAxis, jsToInt32, jsTrunc, initState]
  norm_num

/-- Source `setContentSize(1, 1)` on the 800×800-viewport state. -/
theorem vpEval2 : stepOp (.setContentSize 1 1)
    { vw := 800, vh := 800, cw := 1, ch := 1, scale := 1, tx := (799 : ℚ)/2, ty := (799 : ℚ)/2,
      minScale := 1, maxScale := 8 } =
    { vw := 800, vh := 800, cw := 1, ch := 1, scale := 800, tx := 0, ty := 0,
      minScale := 800, maxScale := 6400 } := by
  simp only [stepOp, setContentSize, recomputeMinScale, clampPan, clampAxis, jsToInt32, jsTrunc]
  norm_num

/-- Source `setContentSize(1000, 1000)` on the zoomed-by-content state. -/
theorem vpEval3 : stepOp (.setContentSize 1000 1000)
    { vw := 800, vh := 800, cw := 1, ch := 1, scale := 800, tx := 0, ty := 0,
      minScale := 800, maxScale := 6400 } =
    { vw := 800, vh := 800, cw := 1000, ch := 1000, scale := 800, tx := 0, ty := 0,
      minScale := 4/5, maxScale := 32/5 } := by
  simp only [stepOp, setContentSize, recomputeMinScale, clampPan, clampAxis, jsToInt32, jsTrunc]
  norm_num

/-- Source `setViewportSize(1, 1)` from the constructor state. -/
theorem vpEval4 : stepOp (.setViewportSize 1 1) initState =
    { vw := 1, vh := 1, cw := 1, ch := 1, scale := 1, tx := 0, ty := 0,
      minScale := 1, maxScale := 8 } := by
  simp only [stepOp, setViewportSize, clampPan, clampAxis, jsToInt32, jsTrunc, initState]
  norm_num

/-- Source `setContentSize(1000, 1000)` on the 1×1-viewport state. -/
theorem vpEval5 : stepOp (.setContentSize 1000 1000)
    { vw := 1, vh := 1, cw := 1, ch := 1, scale := 1, tx := 0, ty := 0,
      minScale := 1, maxScale := 8 } =
    { vw := 1, vh := 1, cw := 1000, ch := 1000, scale := 1, tx := 0, ty := 0,
      minScale := 1/1000, maxScale := 1/125 } := by
  simp only [stepOp, setContentSize, recomputeMinScale, clampPan, clampAxis, jsToInt32, jsTrunc]
  norm_num

/-- Source `setViewportSize(0, 0)`: the viewport collapses, bounds stay stale. -/
theorem vpEval6 : stepOp (.setViewportSize 0 0)
    { vw := 1, vh := 1, cw := 1000, ch := 1000, scale := 1, tx := 0, ty := 0,
      minScale := 1/1000, maxScale := 1/125 } =
    { vw := 0, vh := 0, cw := 1000, ch := 1000, scale := 1, tx := 0, ty := 0,
      minScale := 1/1000, maxScale := 1/125 } := by
  simp only [stepOp, setViewportSize, clampPan, clampAxis, jsToInt32, jsTrunc]
  norm_num

/-- Source `fitContain()` on the degenerate viewport resets `minScale` to 1
while leaving the stale small `maxScale` in place. -/
theorem vpEval7 : stepOp .fitContain
    { vw := 0, vh := 0, cw := 1000, ch := 1000, scale := 1, tx := 0, ty := 0,
      minScale := 1/1000, maxScale := 1/125 } =
    { vw := 0, vh := 0, cw := 1000, ch := 1000, scale := 1, tx := -500, ty := -500,
      minScale := 1, maxScale := 1/125 } := by
  simp only [stepOp, fitContain, recomputeMinScale]
  norm_num

/-! ## Claim theorems for the viewport engine -/

/-- C2, counterexample.  The claimed invariant `minScale ≤ scale ≤ maxScale`
(with `minScale` the fit-contain formula `min(vw/cw, vh/ch)`) fails after a
single `setViewportSize(800, 800)` call from the constructor state, because
`setViewportSize` never recomputes `minScale`: the formula value is 800 while
`scale` is still 1.  It fails even for the stored `minScale`/`maxScale`
fields after `setViewportSize(800,800); setContentSize(1,1);
setContentSize(1000,1000)`, where `scale = 800` exceeds `maxScale = 32/5`. -/
theorem c2_counterexample :
    (¬ (specMinScale (runOps [.setViewportSize 800 800]) ≤ (runOps [.setViewportSize 800 800]).scale
        ∧ (runOps [.setViewportSize 800 800]).scale ≤ (runOps [.setViewportSize 800 800]).maxScale))
    ∧ ¬ ((runOps [.setViewportSize 800 800, .setContentSize 1 1, .setContentSize 1000 1000]).scale
        ≤ (runOps [.setViewportSize 800 800, .setContentSize 1 1, .setContentSize 1000 1000]).maxScale) := by
  have r1 : runOps [.setViewportSize 800 800] = stepOp (.setViewportSize 800 800) initState := rfl
  have r3 : runOps [.setViewportSize 800 800, .setContentSize 1 1, .setContentSize 1000 1000] =
      stepOp (.setContentSize 1000 1000)
        (stepOp (.setContentSize 1 1) (stepOp (.setViewportSize 800 800) initState)) := rfl
  rw [r1, r3, vpEval1, vpEval2, vpEval3]
  constructor
  · norm_num [specMinScale]
  · norm_num

/-- C2, amended: after every call in any sequence of the five mutating
operations, the stored `minScale ≤ scale` holds.  The upper half of the
claimed invariant is false (`setContentSize` resets `maxScale` to
`8 * minScale`, which can fall below the current `scale`), and the stored
`minScale` agrees with the fit-contain formula only immediately after the
operations that recompute it. -/
theorem c2_min_le_scale : ∀ ops : List VOp, (runOps ops).minScale ≤ (runOps ops).scale :=
  fun ops =>
    foldl_invariant (fun s => s.minScale ≤ s.scale) stepOp_min_le_scale ops initState
      (by norm_num [initState])

/-- C3, counterexample.  `maxScale` is not monotonic: across the
`setContentSize(1000, 1000)` call of the sequence
`setViewportSize(800,800); setContentSize(1,1); setContentSize(1000,1000)`
it drops from 6400 to 32/5.  Moreover `maxScale ≥ minScale` does not always
hold: after `setViewportSize(1,1); setContentSize(1000,1000);
setViewportSize(0,0); fitContain()` the state has `minScale = 1` but
`maxScale = 1/125`. -/
theorem c3_counterexample :
    ((runOps [.setViewportSize 800 800, .setContentSize 1 1, .setContentSize 1000 1000]).maxScale
      < (runOps [.setViewportSize 800 800, .setContentSize 1 1]).maxScale)
    ∧ ((runOps [.setViewportSize 1 1, .setContentSize 1000 1000, .setViewportSize 0 0,
          .fitContain]).maxScale
        < (runOps [.setViewportSize 1 1, .setContentSize 1000 1000, .setViewportSize 0 0,
          .fitContain]).minScale) := by
  have r2 : runOps [.setViewportSize 800 800, .setContentSize 1 1] =
      stepOp (.setContentSize 1 1) (stepOp (.setViewportSize 800 800) initState) := rfl
  have r3 : runOps [.setViewportSize 800 800, .setContentSize 1 1, .setContentSize 1000 1000] =
      stepOp (.setContentSize 1000 1000)
        (stepOp (.setContentSize 1 1) (stepOp (.setViewportSize 800 800) initState)) := rfl
  have q4 : runOps [.setViewportSize 1 1, .setContentSize 1000 1000, .setViewportSize 0 0,
      .fitContain] =
      stepOp .fitContain (stepOp (.setViewportSize 0 0)
        (stepOp (.setContentSize 1000 1000) (stepOp (.setViewportSize 1 1) initState))) := rfl
  rw [r2, r3, q4, vpEval1, vpEval2, vpEval3, vpEval4, vpEval5, vpEval6, vpEval7]
  norm_num

/-- C3, amended: `setViewportSize` changes neither `minScale` nor
`maxScale` (so it trivially never decreases `maxScale`), and every
`setContentSize` call ends with `maxScale = max (8 * minScale) minScale`,
hence `minScale ≤ maxScale` right after it.  But `setContentSize` can
decrease `maxScale` (it resets it to 8× the new `minScale`), and
`fitContain` on a degenerate viewport can leave `maxScale < minScale`. -/
theorem c3_maxScale_per_op :
    (∀ (s : VState) (w h : ℚ), (setViewportSize s w h).minScale = s.minScale ∧
        (setViewportSize s w h).maxScale = s.maxScale) ∧
    (∀ (s : VState) (w h : ℚ),
        (setContentSize s w h).minScale ≤ (setContentSize s w h).maxScale) :=
  ⟨setViewportSize_bounds, setContentSize_min_le_max⟩

/-- C8: `clampPan` establishes the per-axis clamped-pan condition from any
state whatsoever, and the condition holds after every call sequence of the
mutating viewport operations (each either ends in `clampPan`, centers
exactly as `fitContain` does, or leaves the state untouched). -/
theorem c8_clampPan_invariant :
    (∀ s : VState, panClamped (clampPan s)) ∧
    (∀ ops : List VOp, panClamped (runOps ops)) :=
  ⟨clampPan_panClamped,
   fun ops => foldl_invariant panClamped stepOp_panClamped ops initState
     (by norm_num [panClamped, axisClamped, initState])⟩

/-- C10: `clampPan` is idempotent on every viewport state: the clamped or
centered translate values are a fixpoint of the clamp. -/
theorem c10_clampPan_idempotent : ∀ s : VState, clampPan (clampPan s) = clampPan s := by
  intro s
  unfold clampPan
  dsimp only
  rw [clampAxis_idem, clampAxis_idem]

/-! ## Image ingestion pipeline (ImageService)

### Byte buffers and DataView reads -/

/-- Byte access into an `ArrayBuffer` view: `Uint8` storage keeps the low
eight bits of every stored value. -/
def byteAt (bytes : List ℕ) (i : ℕ) : ℕ := (bytes.getD i 0) % 256

/-- Source `DataView.getUint16(i)` big-endian (the default, used for JPEG markers). -/
def u16be (bytes : List ℕ) (i : ℕ) : ℕ := byteAt bytes i * 256 + byteAt bytes (i + 1)

/-- Source `DataView.getUint16(i, littleEndian)`. -/
def u16 (bytes : List ℕ) (i : ℕ) (little : Bool) : ℕ :=
  if little then byteAt bytes i + byteAt bytes (i + 1) * 256 else u16be bytes i

/-- Source `DataView.getUint32(i, littleEndian)`. -/
def u32 (bytes : List ℕ) (i : ℕ) (little : Bool) : ℕ :=
  if little then
    byteAt bytes i + byteAt bytes (i + 1) * 256 + byteAt bytes (i + 2) * 65536 +
      byteAt bytes (i + 3) * 16777216
  else
    byteAt bytes i * 16777216 + byteAt bytes (i + 1) * 65536 + byteAt bytes (i + 2) * 256 +
      byteAt bytes (i + 3)

/-! ### EXIF orientation parser (`_readExifOrientation` / `_readTiffOrientation`)

Every read after the initial start-of-image check is bounds-guarded in the
source, so from offset 2 onward the scan is a total function.  The single
unguarded read is `view.getUint16(0)`, which throws a `RangeError` on a
buffer shorter than two bytes; that is modelled with `Except`. -/

/-- The entry loop of `_readTiffOrientation`: walk the 12-byte IFD entries
looking for the orientation tag 0x0112.  `fuel` is the remaining loop
iterations (starting at the entry count); the bounds guard
`entryOffset + 12 > length` breaks the loop exactly as in the source. -/
def tiffEntryScan (bytes : List ℕ) (little : Bool) (dirOffset : ℕ) :
    (i fuel : ℕ) → Option ℕ
  | _, 0 => none
  | i, fuel + 1 =>
    let entryOffset := dirOffset + i * 12
    if entryOffset + 12 > bytes.length then none
    else
      let tag := u16 bytes entryOffset little
      if tag = 0x0112 then
        let entryType := u16 bytes (entryOffset + 2) little
        let count := u32 bytes (entryOffset + 4) little
        if entryType ≠ 3 ∨ count ≠ 1 then none
        else
          let value := u16 bytes (entryOffset + 8) little
          if 1 ≤ value ∧ value ≤ 8 then some value else none
      else tiffEntryScan bytes little dirOffset (i + 1) fuel

/-- Source `_readTiffOrientation(view, tiffOffset)`: endianness tag (`"II"` = 73 73
little-endian, `"MM"` = 77 77 big-endian), magic 0x2a, IFD offset, then the
entry scan. -/
def readTiffOrientation (bytes : List ℕ) (tiffOffset : ℕ) : Option ℕ :=
  if tiffOffset + 8 > bytes.length then none
  else
    let little : Bool :=
      byteAt bytes tiffOffset == 73 && byteAt bytes (tiffOffset + 1) == 73
    if !little && !(byteAt bytes tiffOffset == 77 && byteAt bytes (tiffOffset + 1) == 77) then
      none
    else
      let magic := u16 bytes (tiffOffset + 2) little
      if magic ≠ 42 then none
      else
        let ifdOffset := u32 bytes (tiffOffset + 4) little
        let dirOffset := tiffOffset + ifdOffset
        if dirOffset + 2 > bytes.length then none
        else
          let entries := u16 bytes dirOffset little
          tiffEntryScan bytes little (dirOffset + 2) 0 entries

/-- The APP1 block of the scan: on an APP1 marker whose segment starts
with the 6-byte `Exif\x00\x00` signature (69 120 105 102 0 0), read the
TIFF directory; otherwise nothing is found in this segment. -/
def app1Probe (bytes : List ℕ) (marker segmentStart : ℕ) : Option ℕ :=
  if marker = 0xffe1 ∧ segmentStart + 6 ≤ bytes.length then
    if byteAt bytes segmentStart = 69 ∧ byteAt bytes (segmentStart + 1) = 120 ∧
        byteAt bytes (segmentStart + 2) = 105 ∧ byteAt bytes (segmentStart + 3) = 102 ∧
        byteAt bytes (segmentStart + 4) = 0 ∧ byteAt bytes (segmentStart + 5) = 0 then
      readTiffOrientation bytes (segmentStart + 6)
    else none
  else none

/-- The marker-segment scan of `_readExifOrientation` from a given offset:
read a big-endian marker, stop on start-of-scan (0xffda), end-of-image
(0xffd9) or a non-marker word, read the segment size, look inside APP1
segments via `app1Probe`, and advance by the segment size.  Terminates
because each step advances the offset by `2 + size` with `size ≥ 2`. -/
def scanSegments (bytes : List ℕ) (offset : ℕ) : Option ℕ :=
  if h4 : offset + 4 ≤ bytes.length then
    let marker := u16be bytes offset
    if marker = 0xffda ∨ marker = 0xffd9 then none
    else if Nat.land marker 0xff00 ≠ 0xff00 then none
    else
      let size := u16be bytes (offset + 2)
      if hsz : size < 2 then none
      else
        match app1Probe bytes marker (offset + 4) with
        | some v => some v
        | none => scanSegments bytes (offset + 2 + size)
  else none
termination_by bytes.length - offset
decreasing_by omega

/-- Source `_readExifOrientation(view)`: the only unguarded read is the initial
`getUint16(0)`, which throws on a buffer shorter than two bytes; every
later read is bounds-checked.  Returns `.ok none` where the source returns
`null`. -/
def readExifOrientation (bytes : List ℕ) : Except String (Option ℕ) :=
  if bytes.length < 2 then
    Except.error "RangeError: Offset is outside the bounds of the DataView"
  else if u16be bytes 0 ≠ 0xffd8 then Except.ok none
  else Except.ok (scanSegments bytes 2)

/-! ### Rasters and the geometric normalizer -/

/-- A decoded raster (`ImageBitmap`): a pixel grid with its dimensions.
Pixel storage is a total function on ℤ coordinates; in-bounds sampling
goes through `Raster.get`. -/
structure Raster where
  width : ℕ
  height : ℕ
  pix : ℤ → ℤ → ℕ

/-- Canvas-style sampling: transparent (0) outside the bounds. -/
def Raster.get (r : Raster) (x y : ℤ) : ℕ :=
  if 0 ≤ x ∧ x < (r.width : ℤ) ∧ 0 ≤ y ∧ y < (r.height : ℤ) then r.pix x y else 0

/-- Source `_normalizeOrientation(bitmap, orientation)`.  Orientation 1 returns the
input bitmap itself (no canvas is allocated); every other code draws the
source onto a fresh canvas of size `dw × dh` under the case's transform
chain.  The second component records whether the returned buffer is the
input buffer (`true` only for the early return).

The per-case pixel maps are the composition of the source's `translate`/
`rotate`/`scale` calls (applied right-to-left, as the canvas CTM does) at
integer pixel granularity.  For codes 5 and 7 the source's transform chain
maps every source pixel to negative device coordinates (off-canvas), so
every destination pixel samples outside the source and stays transparent;
the maps below reproduce that faithfully via the `Raster.get` bounds
guard. -/
def normalizeOrientation (bitmap : Raster) (orientation : ℕ) : Raster × Bool :=
  if orientation = 1 then (bitmap, true)
  else
    let sw := bitmap.width
    let sh := bitmap.height
    let dw := if 5 ≤ orientation ∧ orientation ≤ 8 then sh else sw
    let dh := if 5 ≤ orientation ∧ orientation ≤ 8 then sw else sh
    let pix : ℤ → ℤ → ℕ :=
      match orientation with
      | 2 => fun x y => bitmap.get ((sw : ℤ) - 1 - x) y
      | 3 => fun x y => bitmap.get ((sw : ℤ) - 1 - x) ((sh : ℤ) - 1 - y)
      | 4 => fun x y => bitmap.get x ((sh : ℤ) - 1 - y)
      | 5 => fun x y => bitmap.get y (x + (sh : ℤ))
      | 6 => fun x y => bitmap.get y ((sh : ℤ) - 1 - x)
      | 7 => fun x y => bitmap.get ((sw : ℤ) - 1 - y) (-x - 1)
      | 8 => fun x y => bitmap.get ((sw : ℤ) - 1 - y) x
      | _ => fun x y => bitmap.get x y
    (⟨dw, dh, pix⟩, false)

/-! ### Guardrail policy -/

/-- Source `this.DISPLAY_MAX_DIM`: soft cap for the display/working buffer. -/
def DISPLAY_MAX_DIM : ℕ := 6000

/-- Source `this.HARD_MAX_DIM`: hard per-side cap. -/
def HARD_MAX_DIM : ℕ := 12000

/-- Source `this.HARD_MAX_PIXELS`: 100-megapixel hard area cap. -/
def HARD_MAX_PIXELS : ℕ := 100000000

/-- The hard-limit rejection predicate, written identically at both of its
occurrences in `_loadFromBlob` (lines 150 and 167). -/
def checkHardLimits (w h : ℕ) : Bool :=
  w > HARD_MAX_DIM || h > HARD_MAX_DIM || w * h > HARD_MAX_PIXELS

/-- JavaScript `Math.round`: round half toward positive infinity. -/
def jsRound (q : ℚ) : ℤ := ⌊q + 1 / 2⌋

/-- The working-size computation inside `_makeWorkingFromOriginal`: the
working dimensions and the downscale factor for the given original
dimensions. -/
def computeWorkingSize (w h : ℕ) : ℕ × ℕ × ℚ :=
  let longSide := max w h
  if longSide ≤ DISPLAY_MAX_DIM then (w, h, 1)
  else
    let scale : ℚ := (DISPLAY_MAX_DIM : ℚ) / (longSide : ℚ)
    (max 1 (jsRound ((w : ℚ) * scale)).toNat, max 1 (jsRound ((h : ℚ) * scale)).toNat, scale)

/-- Source `_makeWorkingFromOriginal()`: clone when no downscale is needed,
otherwise draw onto a `dw × dh` canvas.  The pixel content of the
downscaled copy comes from the host surface's smoothing draw (an external
primitive); only its dimensions are determined by the core. -/
def makeWorkingFromOriginal (src : Raster) : Raster :=
  let w := src.width
  let h := src.height
  if max w h ≤ DISPLAY_MAX_DIM then ⟨w, h, fun x y => src.get x y⟩
  else
    let s := computeWorkingSize w h
    ⟨s.1, s.2.1, fun _ _ => 0⟩

/-! ### Pipeline state, blobs and errors -/

/-- Guardrail thresholds recorded in the metadata. -/
structure GuardrailLimits where
  displayMaxDim : ℕ
  hardMaxDim : ℕ
  hardMaxPixels : ℕ
  deriving DecidableEq, Repr

/-- Source `ImageMetadata` as assembled by `_loadFromBlob`. -/
structure ImageMetadata where
  sourceType : String
  name : Option String
  mime : String
  width : ℕ
  height : ℕ
  orientation : ℕ
  byteLength : ℕ
  workingWidth : ℕ
  workingHeight : ℕ
  isDownscaled : Bool
  downscaleFactor : ℚ
  limits : GuardrailLimits
  deriving DecidableEq, Repr

/-- A `Blob`/`File` input together with the behavior of the host
environment's decode capability on it: `decodesTo` is the outcome of the
external byte-to-raster decoder (an error message when it rejects the
bytes). -/
structure Blob where
  type : String
  bytes : List ℕ
  size : ℕ
  name : Option String
  decodesTo : Except String Raster

/-- An `Error` as surfaced to callers; `isFriendly` is the marker attached
by `_friendlyError`. -/
structure Err where
  message : String
  isFriendly : Bool
  deriving DecidableEq, Repr

/-- The committed state of `ImageServiceImpl`. -/
structure PipelineState where
  original : Option Raster
  working : Option Raster
  meta : Option ImageMetadata

/-- Source `getOriginal()`. -/
def getOriginal (st : PipelineState) : Option Raster := st.original

/-- Source `getWorking()`. -/
def getWorking (st : PipelineState) : Option Raster := st.working

/-- Source `getMetadata()`. -/
def getMetadata (st : PipelineState) : Option ImageMetadata := st.meta

/-- The success value of a load. -/
structure LoadResult where
  original : Raster
  working : Raster
  metadata : ImageMetadata

/-- The supported MIME set. -/
def SUPPORTED_TYPES : List String := ["image/jpeg", "image/png", "image/webp"]

def unsupportedFormatMsg : String :=
  "Unsupported image format. Please use PNG, JPEG, or WebP."

/-- The "too large" message with the default thresholds interpolated
(`${12000}px`, `~${Math.round(1e8 / 1e6)}MP`). -/
def tooLargeMsg : String :=
  "Image is too large to open (max 12000px per side or ~100MP). " ++
    "Please resize the image in an external editor and try again."

def decodeFailedMsg (m : String) : String :=
  "Could not decode image. " ++ m ++ " The file may be corrupted or unsupported."

def urlFailedMsg (m : String) : String :=
  "Failed to load image from URL. " ++ m ++ " Ensure the URL is correct and CORS is enabled."

/-- Source `_friendlyError(message)`. -/
def friendlyError (message : String) : Err := ⟨message, true⟩

/-- Source `_asMessage(err)` for an `Error` object: its message when non-empty,
otherwise `String(err)`, which is `"Error"` for an empty-message error. -/
def asMessage (m : String) : String := if m = "" then "Error" else m

/-- Source `_isJpeg(blob)`: reads the first two bytes of `blob.slice(0, 2)`;
on a blob shorter than two bytes the slice is shorter and the
`getUint16(0)` read throws. -/
def sniffIsJpeg (blob : Blob) : Except String Bool :=
  if blob.bytes.length < 2 then
    Except.error "RangeError: Offset is outside the bounds of the DataView"
  else Except.ok (u16be blob.bytes 0 == 0xffd8)

/-- The EXIF step of `_loadFromBlob`: attempted for JPEG-typed or
JPEG-signatured blobs; the whole block sits in a `try/catch` whose handler
forces orientation 1, and a `null` parse result also defaults to 1
(`|| 1`). -/
def orientationOf (blob : Blob) : ℕ :=
  let attempt : Except String ℕ := do
    let isJpeg ← if blob.type = "image/jpeg" then pure true else sniffIsJpeg blob
    if isJpeg then do
      let r ← readExifOrientation blob.bytes
      pure (match r with | some v => v | none => 1)
    else pure 1
  match attempt with
  | .ok v => v
  | .error _ => 1

/-- The pre-orientation dimension prediction of `_loadFromBlob`:
`expectedW`/`expectedH` swap the decoded dimensions when the orientation
code is in the 90°-rotation family (`isRotated`, codes 5..8). -/
def expectedDims (orientation sw sh : ℕ) : ℕ × ℕ :=
  if 5 ≤ orientation ∧ orientation ≤ 8 then (sh, sw) else (sw, sh)

/-- Source `blob.type || 'application/octet-stream'`: the falsy string is the
empty one. -/
def mimeOf (t : String) : String :=
  if t = "" then "application/octet-stream" else t

/-- JavaScript `x || y` on non-negative numbers: the falsy number is 0. -/
def jsOrNat (x y : ℕ) : ℕ := if x = 0 then y else x

/-- The `ImageMetadata` record assembled at the end of `_loadFromBlob`. -/
def assembleMeta (sourceType : String) (name : Option String) (blobType : String)
    (byteLength : ℕ) (orientation : ℕ) (upright working : Raster) : ImageMetadata :=
  { sourceType := sourceType
    name := name
    mime := mimeOf blobType
    width := upright.width
    height := upright.height
    orientation := orientation
    byteLength := byteLength
    workingWidth := jsOrNat working.width upright.width
    workingHeight := jsOrNat working.height upright.height
    isDownscaled := working.width != upright.width || working.height != upright.height
    downscaleFactor := (working.width : ℚ) / (upright.width : ℚ)
    limits := ⟨DISPLAY_MAX_DIM, HARD_MAX_DIM, HARD_MAX_PIXELS⟩ }

/-- Source `_loadFromBlob(blob, baseMeta)`.  Returns the post-call committed state
together with the returned value or thrown error.  The guardrail checks are
the two occurrences of `checkHardLimits`; `this._original` is committed
between them, and the second rejection branch resets `original`/`working`
to null before throwing, exactly as the source does. -/
def loadFromBlob (st : PipelineState) (blob : Blob) (sourceType : String)
    (name : Option String) : PipelineState × Except Err LoadResult :=
  if !(SUPPORTED_TYPES.contains blob.type) then
    (st, .error (friendlyError unsupportedFormatMsg))
  else
    let orientation := orientationOf blob
    let byteLength := blob.size
    match blob.decodesTo with
    | .error m => (st, .error (friendlyError (decodeFailedMsg (asMessage m))))
    | .ok decoded =>
      let expected := expectedDims orientation decoded.width decoded.height
      if checkHardLimits expected.1 expected.2 then
        (st, .error (friendlyError tooLargeMsg))
      else
        let upright := (normalizeOrientation decoded orientation).1
        let st1 : PipelineState := { st with original := some upright }
        if checkHardLimits upright.width upright.height then
          ({ st1 with original := none, working := none },
            .error (friendlyError tooLargeMsg))
        else
          let working := makeWorkingFromOriginal upright
          let st2 : PipelineState := { st1 with working := some working }
          let meta := assembleMeta sourceType name blob.type byteLength orientation
            upright working
          ({ st2 with meta := some meta }, .ok ⟨upright, working, meta⟩)

/-- Source `loadFromFile(file)`: `file.name || undefined`, then `_loadFromBlob`.
(The typed model cannot pass a non-Blob input, so the `instanceof` guard
has no failing case here.) -/
def loadFromFile (st : PipelineState) (file : Blob) :
    PipelineState × Except Err LoadResult :=
  loadFromBlob st file "file"
    (match file.name with
     | some n => if n = "" then none else some n
     | none => none)

/-- The host `fetch` outcome for a URL load: a network-level failure
carrying an error message, or a response with `ok`, `status` and the
body blob. -/
structure FetchResponse where
  ok : Bool
  status : ℕ
  blob : Blob

/-- Source `loadFromUrl(url)`: the entire body is inside `try/catch`, so every
failure — network error, non-success HTTP status (thrown as a raw
`Error` with message `HTTP <status>`), or any error thrown by
`_loadFromBlob` — is caught and re-thrown as a single friendly error
that embeds the original message.  State committed by `_loadFromBlob`
before it threw is not rolled back. -/
def loadFromUrl (st : PipelineState) (fetched : Except String FetchResponse) :
    PipelineState × Except Err LoadResult :=
  match fetched with
  | .error m => (st, .error (friendlyError (urlFailedMsg (asMessage m))))
  | .ok res =>
    if !res.ok then
      (st, .error (friendlyError (urlFailedMsg (asMessage ("HTTP " ++ toString res.status)))))
    else
      let r := loadFromBlob st res.blob "url" none
      match r.2 with
      | .ok out => (r.1, .ok out)
      | .error e => (r.1, .error (friendlyError (urlFailedMsg (asMessage e.message))))

/-! ### Helper lemmas for the pipeline theorems -/

/-- The normalized width follows the same rotation predicate the
pre-orientation guardrail check uses. -/
theorem normalizeOrientation_width (r : Raster) (o : ℕ) :
    (normalizeOrientation r o).1.width = if 5 ≤ o ∧ o ≤ 8 then r.height else r.width := by
  by_cases h1 : o = 1
  · subst h1; simp [normalizeOrientation]
  · simp only [normalizeOrientation, if_neg h1]

/-- The normalized height follows the same rotation predicate the
pre-orientation guardrail check uses. -/
theorem normalizeOrientation_height (r : Raster) (o : ℕ) :
    (normalizeOrientation r o).1.height = if 5 ≤ o ∧ o ≤ 8 then r.width else r.height := by
  by_cases h1 : o = 1
  · subst h1; simp [normalizeOrientation]
  · simp only [normalizeOrientation, if_neg h1]

/-! ## Claim theorems for the guardrail policy and normalizer -/

/-- C5: with the default thresholds, the hard-limit check rejects exactly
when `width > 12000` or `height > 12000` or `width * height > 10^8`; in
particular 12000×1 is accepted, 12001×1 rejected, 10001×10001 rejected,
and 10000×10000 (exactly 10^8 pixels) accepted. -/
theorem c5_hard_limits :
    (∀ w h : ℕ, checkHardLimits w h = true ↔ (12000 < w ∨ 12000 < h ∨ 100000000 < w * h)) ∧
    checkHardLimits 12000 1 = false ∧ checkHardLimits 12001 1 = true ∧
    checkHardLimits 10001 10001 = true ∧ checkHardLimits 10000 10000 = false := by
  refine ⟨fun w h => ?_, by decide, by decide, by decide, by decide⟩
  simp only [checkHardLimits, HARD_MAX_DIM, HARD_MAX_PIXELS, Bool.or_eq_true, decide_eq_true_eq]
  tauto

/-- C6: for positive dimensions, the working-size computation with
`displayMaxDim = 6000` yields factor 1 and unchanged dimensions when
`max(width, height) ≤ 6000`, and otherwise factor `6000 / max(width,
height)` with each output dimension `round(dimension * factor)` floored at
1; in particular (12000, 6000) yields factor 1/2 with working size
(6000, 3000), and (3000, 2000) is unchanged with factor 1. -/
theorem c6_working_size (w h : ℕ) (hw : 0 < w) (hh : 0 < h) :
    (max w h ≤ 6000 → computeWorkingSize w h = (w, h, 1)) ∧
    (6000 < max w h → computeWorkingSize w h =
        (max 1 (jsRound ((w : ℚ) * (6000 / (max w h : ℕ)))).toNat,
         max 1 (jsRound ((h : ℚ) * (6000 / (max w h : ℕ)))).toNat,
         6000 / ((max w h : ℕ) : ℚ))) ∧
    computeWorkingSize 12000 6000 = (6000, 3000, 1/2) ∧
    computeWorkingSize 3000 2000 = (3000, 2000, 1) := by
  refine ⟨fun hle => ?_, fun hgt => ?_, ?_, ?_⟩
  · rw [computeWorkingSize, if_pos (by simpa [DISPLAY_MAX_DIM] using hle)]
  · rw [computeWorkingSize, if_neg (by simpa [DISPLAY_MAX_DIM] using not_le.mpr hgt)]
    norm_num [DISPLAY_MAX_DIM]
  · norm_num [computeWorkingSize, DISPLAY_MAX_DIM, jsRound]
    decide
  · norm_num [computeWorkingSize, DISPLAY_MAX_DIM]

/-- C6, witness at (12000, 6000). -/
theorem c6_witness :
    0 < (12000 : ℕ) ∧ 0 < (6000 : ℕ) ∧
    ((max 12000 6000 ≤ 6000 → computeWorkingSize 12000 6000 = (12000, 6000, 1)) ∧
     (6000 < max 12000 6000 → computeWorkingSize 12000 6000 =
        (max 1 (jsRound ((12000 : ℚ) * (6000 / (max 12000 6000 : ℕ)))).toNat,
         max 1 (jsRound ((6000 : ℚ) * (6000 / (max 12000 6000 : ℕ)))).toNat,
         6000 / ((max 12000 6000 : ℕ) : ℚ))) ∧
     computeWorkingSize 12000 6000 = (6000, 3000, 1/2) ∧
     computeWorkingSize 3000 2000 = (3000, 2000, 1)) :=
  ⟨by norm_num, by norm_num, c6_working_size 12000 6000 (by norm_num) (by norm_num)⟩

/-- C7: the normalizer returns the input buffer itself (no fresh canvas)
for orientation 1; a fresh buffer with the input's dimensions for codes
2, 3, 4; and a fresh buffer with the dimensions swapped for codes 5, 6, 7,
8.  In this pure embedding the source raster is a read-only argument, so it
is never mutated. -/
theorem c7_normalize_dims (r : Raster) :
    normalizeOrientation r 1 = (r, true) ∧
    ((normalizeOrientation r 2).1.width = r.width ∧
      (normalizeOrientation r 2).1.height = r.height ∧ (normalizeOrientation r 2).2 = false) ∧
    ((normalizeOrientation r 3).1.width = r.width ∧
      (normalizeOrientation r 3).1.height = r.height ∧ (normalizeOrientation r 3).2 = false) ∧
    ((normalizeOrientation r 4).1.width = r.width ∧
      (normalizeOrientation r 4).1.height = r.height ∧ (normalizeOrientation r 4).2 = false) ∧
    ((normalizeOrientation r 5).1.width = r.height ∧
      (normalizeOrientation r 5).1.height = r.width ∧ (normalizeOrientation r 5).2 = false) ∧
    ((normalizeOrientation r 6).1.width = r.height ∧
      (normalizeOrientation r 6).1.height = r.width ∧ (normalizeOrientation r 6).2 = false) ∧
    ((normalizeOrientation r 7).1.width = r.height ∧
      (normalizeOrientation r 7).1.height = r.width ∧ (normalizeOrientation r 7).2 = false) ∧
    ((normalizeOrientation r 8).1.width = r.height ∧
      (normalizeOrientation r 8).1.height = r.width ∧ (normalizeOrientation r 8).2 = false) :=
  ⟨rfl, ⟨rfl, rfl, rfl⟩, ⟨rfl, rfl, rfl⟩, ⟨rfl, rfl, rfl⟩, ⟨rfl, rfl, rfl⟩,
    ⟨rfl, rfl, rfl⟩, ⟨rfl, rfl, rfl⟩, ⟨rfl, rfl, rfl⟩⟩

/-! ### Parser lemmas and claim theorems (C4) -/

/-- The TIFF entry scan only ever returns a value in 1..8. -/
theorem tiffEntryScan_range (bytes : List ℕ) (little : Bool) (dirOffset : ℕ) :
    ∀ (fuel i v : ℕ), tiffEntryScan bytes little dirOffset i fuel = some v → 1 ≤ v ∧ v ≤ 8 := by
  intro fuel
  induction fuel with
  | zero => intro i v h; simp [tiffEntryScan] at h
  | succ n ih =>
    intro i v h
    rw [tiffEntryScan] at h
    dsimp only at h
    split_ifs at h with hb ht hc hr
    all_goals try simp at h
    all_goals first
      | omega
      | exact ih (i + 1) v h

/-- The TIFF directory read only ever returns a value in 1..8. -/
theorem readTiffOrientation_range (bytes : List ℕ) (tiffOffset : ℕ) :
    ∀ v, readTiffOrientation bytes tiffOffset = some v → 1 ≤ v ∧ v ≤ 8 := by
  intro v h
  rw [readTiffOrientation] at h
  dsimp only at h
  split_ifs at h with h1 h2 h3 h4
  all_goals exact tiffEntryScan_range bytes _ _ _ 0 v h

/-- The APP1 probe only ever returns a value in 1..8. -/
theorem app1Probe_range (bytes : List ℕ) (marker segmentStart : ℕ) :
    ∀ v, app1Probe bytes marker segmentStart = some v → 1 ≤ v ∧ v ≤ 8 := by
  intro v h
  rw [app1Probe] at h
  split_ifs at h with h1 h2
  all_goals exact readTiffOrientation_range bytes _ v h

/-- The segment scan only ever returns a value in 1..8. -/
theorem scanSegments_range (bytes : List ℕ) :
    ∀ offset v, scanSegments bytes offset = some v → 1 ≤ v ∧ v ≤ 8 := by
  have H : ∀ (n offset v : ℕ), bytes.length - offset ≤ n →
      scanSegments bytes offset = some v → 1 ≤ v ∧ v ≤ 8 := by
    intro n
    induction n with
    | zero =>
      intro offset v hle h
      rw [scanSegments] at h
      rw [dif_neg (by omega)] at h
      cases h
    | succ n ih =>
      intro offset v hle h
      rw [scanSegments] at h
      by_cases h4 : offset + 4 ≤ bytes.length
      · rw [dif_pos h4] at h
        dsimp only at h
        split_ifs at h with hm hl hsz
        cases hf : app1Probe bytes (u16be bytes offset) (offset + 4) with
        | some v0 =>
          rw [hf] at h
          have hv := Option.some.inj h
          subst hv
          exact app1Probe_range bytes _ _ v0 hf
        | none =>
          rw [hf] at h
          exact ih (offset + 2 + u16be bytes (offset + 2)) v (by omega) h
      · rw [dif_neg h4] at h
        cases h
  exact fun offset v => H (bytes.length - offset) offset v le_rfl

/-- A synthetic JPEG: SOI, then one APP1 segment with the Exif signature
and a little-endian TIFF block whose single IFD entry is the orientation
tag (0x0112, SHORT, count 1) with value 3. -/
def sampleExifJpeg : List ℕ :=
  [0xff, 0xd8, 0xff, 0xe1, 0x00, 0x1e,
   0x45, 0x78, 0x69, 0x66, 0x00, 0x00,
   0x49, 0x49, 0x2a, 0x00, 0x08, 0x00, 0x00, 0x00,
   0x01, 0x00,
   0x12, 0x01, 0x03, 0x00, 0x01, 0x00, 0x00, 0x00, 0x03, 0x00, 0x00, 0x00]

/-- Validation of the embedding: the synthetic JPEG parses to
orientation 3. -/
theorem scanSegments_sample : scanSegments sampleExifJpeg 2 = some 3 := by
  rw [scanSegments]
  decide

theorem readExifOrientation_sample :
    readExifOrientation sampleExifJpeg = .ok (some 3) := by
  rw [readExifOrientation, if_neg (by decide), if_neg (by decide), scanSegments_sample]

/-- Validation of the embedding: a buffer truncated mid-scan yields
`NotFound`, not an error, because the loop guard fails. -/
theorem scanSegments_truncated : scanSegments [0xff, 0xd8, 0xff] 2 = none := by
  rw [scanSegments]
  decide

theorem readExifOrientation_truncated :
    readExifOrientation [0xff, 0xd8, 0xff] = .ok none := by
  rw [readExifOrientation, if_neg (by decide), if_neg (by decide), scanSegments_truncated]

/-- C4, counterexample.  The parser is not total on every byte buffer: on
the empty buffer (and any buffer shorter than two bytes) the initial
unguarded `view.getUint16(0)` throws a `RangeError` instead of returning
`NotFound`.  (The pipeline's caller catches it in the `try/catch` around
the EXIF step and falls back to orientation 1.) -/
theorem c4_counterexample :
    readExifOrientation [] =
      .error "RangeError: Offset is outside the bounds of the DataView" := rfl

/-- C4, amended: for every buffer of length at least 2 the parser never
raises: it returns `NotFound` or a code in 1..8, and it returns `NotFound`
whenever the first two bytes are not the JPEG start-of-image marker; any
out-of-bounds read during the scan of such a buffer just terminates the
scan.  Buffers shorter than two bytes instead make the initial
start-of-image read throw (caught by the pipeline and treated as
orientation 1). -/
theorem c4_parser_no_throw (bytes : List ℕ) (h2 : 2 ≤ bytes.length) :
    (∃ r : Option ℕ, readExifOrientation bytes = .ok r ∧
        ∀ c, r = some c → 1 ≤ c ∧ c ≤ 8) ∧
    (u16be bytes 0 ≠ 0xffd8 → readExifOrientation bytes = .ok none) := by
  constructor
  · rw [readExifOrientation, if_neg (by omega)]
    by_cases hsoi : u16be bytes 0 ≠ 0xffd8
    · rw [if_pos hsoi]
      exact ⟨none, rfl, by simp⟩
    · rw [if_neg hsoi]
      exact ⟨scanSegments bytes 2, rfl, fun c hc => scanSegments_range bytes 2 c hc⟩
  · intro hsoi
    rw [readExifOrientation, if_neg (by omega), if_pos hsoi]

/-- C4, witness at the two-byte buffer `[0xff, 0xd8]`. -/
theorem c4_witness :
    2 ≤ ([255, 216] : List ℕ).length ∧
    ((∃ r : Option ℕ, readExifOrientation [255, 216] = .ok r ∧
        ∀ c, r = some c → 1 ≤ c ∧ c ≤ 8) ∧
     (u16be [255, 216] 0 ≠ 0xffd8 → readExifOrientation [255, 216] = .ok none)) :=
  ⟨by norm_num, c4_parser_no_throw [255, 216] (by norm_num)⟩

/-! ### Load orchestration lemmas and claim theorems (C1, C9) -/

/-- The normalizer produces exactly the dimensions the pre-orientation
guardrail check predicted: predicted and actual post-transform size agree
for every orientation code, so the second hard-limit check can never fire
after the first one passed. -/
theorem normalizeOrientation_expected (r : Raster) (o : ℕ) :
    (normalizeOrientation r o).1.width = (expectedDims o r.width r.height).1 ∧
    (normalizeOrientation r o).1.height = (expectedDims o r.width r.height).2 := by
  rw [normalizeOrientation_width, normalizeOrientation_height, expectedDims]
  split_ifs with h <;> exact ⟨rfl, rfl⟩

/-- Every error thrown by `_loadFromBlob` leaves the committed state
untouched and is friendly.  The destructive second-guardrail branch is
unreachable because the predicted and actual post-normalization dimensions
coincide. -/
theorem loadFromBlob_error (st : PipelineState) (blob : Blob) (sourceType : String)
    (name : Option String) (e : Err) :
    (loadFromBlob st blob sourceType name).2 = .error e →
    (loadFromBlob st blob sourceType name).1 = st ∧ e.isFriendly = true := by
  unfold loadFromBlob
  dsimp only
  split
  · intro h
    exact ⟨rfl, by rw [← Except.error.inj h]; rfl⟩
  · split
    · intro h
      exact ⟨rfl, by rw [← Except.error.inj h]; rfl⟩
    · next decoded heq =>
      split
      · intro h
        exact ⟨rfl, by rw [← Except.error.inj h]; rfl⟩
      · next hpre =>
        split
        · next hpost =>
          exfalso
          have hw := (normalizeOrientation_expected decoded (orientationOf blob)).1
          have hh := (normalizeOrientation_expected decoded (orientationOf blob)).2
          rw [hw, hh] at hpost
          exact hpre hpost
        · intro h
          cases h

/-- Every error thrown by `loadFromUrl` leaves the committed state
untouched and is friendly. -/
theorem loadFromUrl_error (st : PipelineState) (fetched : Except String FetchResponse)
    (e : Err) :
    (loadFromUrl st fetched).2 = .error e →
    (loadFromUrl st fetched).1 = st ∧ e.isFriendly = true := by
  unfold loadFromUrl
  cases fetched with
  | error m =>
    intro h
    exact ⟨rfl, by rw [← Except.error.inj h]; rfl⟩
  | ok res =>
    dsimp only
    split
    · intro h
      exact ⟨rfl, by rw [← Except.error.inj h]; rfl⟩
    · split
      · intro h
        cases h
      · next e0 heq =>
        intro h
        have hst := (loadFromBlob_error st res.blob "url" none e0 heq).1
        exact ⟨hst, by rw [← Except.error.inj h]; rfl⟩

/-- An empty pipeline, an unsupported (GIF-typed) blob and an OK fetch of
it: concrete inputs for witnesses and counterexamples. -/
def emptyPipeline : PipelineState := ⟨none, none, none⟩

def gifBlob : Blob :=
  { type := "image/gif", bytes := [], size := 0, name := none, decodesTo := .error "boom" }

def gifFetch : FetchResponse := { ok := true, status := 200, blob := gifBlob }

/-- C1: every failing load — unsupported format, fetch failure, decode
failure, or guardrail rejection pre- or post-normalization — leaves the
previously committed state unchanged: `getOriginal`, `getWorking` and
`getMetadata` return exactly what they returned before the call, for both
file- and URL-sourced loads.  (The one branch that resets committed state,
the post-normalization rejection, is unreachable: the predicted and actual
post-transform dimensions always agree.) -/
theorem c1_load_failure_preserves_state (st : PipelineState) (file : Blob)
    (fetched : Except String FetchResponse) (e : Err) :
    ((loadFromFile st file).2 = .error e →
      getOriginal (loadFromFile st file).1 = getOriginal st ∧
      getWorking (loadFromFile st file).1 = getWorking st ∧
      getMetadata (loadFromFile st file).1 = getMetadata st) ∧
    ((loadFromUrl st fetched).2 = .error e →
      getOriginal (loadFromUrl st fetched).1 = getOriginal st ∧
      getWorking (loadFromUrl st fetched).1 = getWorking st ∧
      getMetadata (loadFromUrl st fetched).1 = getMetadata st) := by
  constructor
  · intro h
    have hst : (loadFromFile st file).1 = st := (loadFromBlob_error st file "file" _ e h).1
    exact ⟨by rw [hst], by rw [hst], by rw [hst]⟩
  · intro h
    have hst := (loadFromUrl_error st fetched e h).1
    exact ⟨by rw [hst], by rw [hst], by rw [hst]⟩

/-- C1, witness: a failing file load and a failing URL load of a GIF blob
from the empty pipeline leave all three getters unchanged. -/
theorem c1_witness :
    ((getOriginal (loadFromFile emptyPipeline gifBlob).1 = getOriginal emptyPipeline ∧
      getWorking (loadFromFile emptyPipeline gifBlob).1 = getWorking emptyPipeline ∧
      getMetadata (loadFromFile emptyPipeline gifBlob).1 = getMetadata emptyPipeline) ∧
     (getOriginal (loadFromUrl emptyPipeline (.ok gifFetch)).1 = getOriginal emptyPipeline ∧
      getWorking (loadFromUrl emptyPipeline (.ok gifFetch)).1 = getWorking emptyPipeline ∧
      getMetadata (loadFromUrl emptyPipeline (.ok gifFetch)).1 = getMetadata emptyPipeline)) :=
  ⟨(c1_load_failure_preserves_state emptyPipeline gifBlob (.ok gifFetch)
      (friendlyError unsupportedFormatMsg)).1 rfl,
   (c1_load_failure_preserves_state emptyPipeline gifBlob (.ok gifFetch)
      (friendlyError (urlFailedMsg unsupportedFormatMsg))).2 rfl⟩

/-- C9, counterexample.  Errors do not propagate verbatim for URL-sourced
loads: `loadFromUrl` catches everything `_loadFromBlob` throws and
re-throws a new error whose message embeds the original one inside
"Failed to load image from URL. ... Ensure the URL is correct and CORS is
enabled." — here the `UnsupportedFormat` error raised during the load
reaches the caller with a different message. -/
theorem c9_counterexample :
    (loadFromUrl emptyPipeline (.ok gifFetch)).2 =
      .error (friendlyError (urlFailedMsg unsupportedFormatMsg)) ∧
    urlFailedMsg unsupportedFormatMsg ≠ unsupportedFormatMsg :=
  ⟨rfl, by decide⟩

/-- C9, amended: for file-sourced loads every error of the taxonomy
propagates verbatim (`loadFromFile` is a direct pass-through to
`_loadFromBlob`) and is friendly, never a raw exception; for URL-sourced
loads every failure of the blob pipeline is re-wrapped into a single
friendly "Failed to load image from URL..." error embedding the original
message, and every URL-load error is likewise friendly. -/
theorem c9_error_propagation (st : PipelineState) (file : Blob)
    (res : FetchResponse) (fetched : Except String FetchResponse) (e d : Err) :
    ((loadFromFile st file).2 =
      (loadFromBlob st file "file"
        (match file.name with
         | some n => if n = "" then none else some n
         | none => none)).2) ∧
    ((loadFromFile st file).2 = .error e → e.isFriendly = true) ∧
    (res.ok = true → (loadFromBlob st res.blob "url" none).2 = .error e →
      (loadFromUrl st (.ok res)).2 =
        .error (friendlyError (urlFailedMsg (asMessage e.message)))) ∧
    ((loadFromUrl st fetched).2 = .error d → d.isFriendly = true) := by
  refine ⟨rfl, fun h => (loadFromBlob_error st file "file" _ e h).2, ?_,
    fun h => (loadFromUrl_error st fetched d h).2⟩
  intro hok hinner
  unfold loadFromUrl
  dsimp only
  rw [hok]
  rw [if_neg (by decide)]
  rw [hinner]

/-- C9, witness: the GIF blob's `UnsupportedFormat` error, friendly on the
file path and re-wrapped (still friendly) on the URL path. -/
theorem c9_witness :
    (friendlyError unsupportedFormatMsg).isFriendly = true ∧
    (loadFromUrl emptyPipeline (.ok gifFetch)).2 =
      .error (friendlyError (urlFailedMsg
        (asMessage (friendlyError unsupportedFormatMsg).message))) ∧
    (friendlyError (urlFailedMsg unsupportedFormatMsg)).isFriendly = true :=
  ⟨(c9_error_propagation emptyPipeline gifBlob gifFetch (.ok gifFetch)
      (friendlyError unsupportedFormatMsg)
      (friendlyError (urlFailedMsg unsupportedFormatMsg))).2.1 rfl,
   (c9_error_propagation emptyPipeline gifBlob gifFetch (.ok gifFetch)
      (friendlyError unsupportedFormatMsg)
      (friendlyError (urlFailedMsg unsupportedFormatMsg))).2.2.1 rfl rfl,
   (c9_error_propagation emptyPipeline gifBlob gifFetch (.ok gifFetch)
      (friendlyError unsupportedFormatMsg)
      (friendlyError (urlFailedMsg unsupportedFormatMsg))).2.2.2 rfl⟩

end LitDemo
